import Mathlib

/-!
Shallow embedding of the payment-lifecycle core of an M-Pesa STK-Push
payment gateway (TypeScript), together with theorems checking the
natural-language specification against it.

Embedded source functions:
* `src/utils/validation.ts`: `validatePhoneNumber`, `formatPhoneNumber`,
  `validateAmount`;
* `src/services/mpesa.service.ts`: `getAccessToken`, `initiateSTKPush`,
  `querySTKPushStatus`, `processSTKCallback`.

JavaScript numbers are modelled by `JsNum` (a rational together with the
non-finite sentinels); thrown exceptions by `Except String`; `undefined`
for optional fields by `Option`.
-/

namespace MpesaGateway

/-- Model of a JavaScript number: rationals plus the IEEE sentinels.
The arithmetic the gateway performs on numbers is only comparison and
finiteness testing, which this model captures exactly. -/
inductive JsNum
  | nan
  | posInf
  | negInf
  | fin (q : ℚ)
deriving DecidableEq

/-- JavaScript `<=` on numbers: any comparison involving NaN is false. -/
def JsNum.leb : JsNum → JsNum → Bool
  | .nan, _ => false
  | _, .nan => false
  | .negInf, _ => true
  | _, .posInf => true
  | .posInf, _ => false
  | .fin _, .negInf => false
  | .fin a, .fin b => decide (a ≤ b)

/-- JavaScript `>=` on numbers. -/
def JsNum.geb (a b : JsNum) : Bool := JsNum.leb b a

/-- `Number.isFinite`. -/
def JsNum.isFinite : JsNum → Bool
  | .fin _ => true
  | _ => false

/-- Model of a JSON value that is either a string or a number
(the `Value` type of a callback metadata item: `string | number`). -/
inductive JsVal
  | str (v : String)
  | num (v : JsNum)
deriving DecidableEq

/-- Whitespace characters matched by the JavaScript regex class `\s`
(ASCII part; the gateway's inputs are ASCII). -/
def isJsWhitespace (c : Char) : Bool :=
  c == ' ' || c == '\t' || c == '\n' || c == '\r' || c == '\x0b' || c == '\x0c'

/-- Characters kept by `phoneNumber.replace(/[\s\-\+]/g, '')`. -/
def keepChar (c : Char) : Bool :=
  !(isJsWhitespace c || c == '-' || c == '+')

/-- `s.replace(/[\s\-\+]/g, '')`: strip whitespace, dashes and plus signs. -/
def stripChars (s : String) : String :=
  ⟨s.data.filter keepChar⟩

/-- JavaScript `s.startsWith(p)`. -/
def jsStartsWith (s p : String) : Bool :=
  p.data.isPrefixOf s.data

/-- JavaScript `s.substring(1)`. -/
def jsDrop1 (s : String) : String :=
  ⟨s.data.drop 1⟩

/-- Decimal digit test `[0-9]`. -/
def isDigitChar (c : Char) : Bool :=
  decide ('0' ≤ c ∧ c ≤ '9')

/-- The tail of the Kenyan mobile regex: `[17][0-9]{8}` against a char list. -/
def kenyanMobileTail (l : List Char) : Bool :=
  match l with
  | p :: rest => (p == '1' || p == '7') && rest.length == 8 && rest.all isDigitChar
  | [] => false

/-- The regex `/^(254|0)[17][0-9]{8}$/` from `validatePhoneNumber`. -/
def kenyanPhoneRegexTest (s : String) : Bool :=
  match s.data with
  | '2' :: '5' :: '4' :: rest => kenyanMobileTail rest
  | '0' :: rest => kenyanMobileTail rest
  | _ => false

/-- `validatePhoneNumber` from `src/utils/validation.ts`: strip
whitespace/dashes/plus signs, then test the Kenyan mobile regex. -/
def validatePhoneNumber (phoneNumber : String) : Bool :=
  kenyanPhoneRegexTest (stripChars phoneNumber)

/-- `formatPhoneNumber` from `src/utils/validation.ts`: strip
whitespace/dashes/plus signs, rewrite a leading `07`/`01` to `254`, then
throw unless the result starts with `254`. A thrown `Error` is modelled
by `Except.error` carrying the message. -/
def formatPhoneNumber (phoneNumber : String) : Except String String :=
  let cleaned := stripChars phoneNumber
  let cleaned :=
    if jsStartsWith cleaned "07" || jsStartsWith cleaned "01" then
      "254" ++ jsDrop1 cleaned
    else cleaned
  if !(jsStartsWith cleaned "254") then
    Except.error "Invalid phone number format"
  else
    Except.ok cleaned

/-- `validateAmount` from `src/utils/validation.ts`:
`amount >= 1 && amount <= 70000 && Number.isFinite(amount)`. -/
def validateAmount (amount : JsNum) : Bool :=
  amount.geb (JsNum.fin 1) && amount.leb (JsNum.fin 70000) && amount.isFinite

/-- Accumulate the value of a list of decimal digit characters. -/
def parseDigitsAux : List Char → ℕ → ℕ
  | [], acc => acc
  | c :: cs, acc => parseDigitsAux cs (acc * 10 + (c.toNat - Char.toNat '0'))

/-- Model of the JavaScript `Number(x)` coercion on strings (the decimal
fragment the gateway can receive): trimmed whitespace, optional sign,
`Infinity`, or decimal digits with an optional fractional part; the empty
string is `0`; anything else is `NaN`. -/
def jsStringToNumber (s : String) : JsNum :=
  let l := ((s.data.dropWhile isJsWhitespace).reverse.dropWhile isJsWhitespace).reverse
  if l.isEmpty then JsNum.fin 0
  else
    let sgn : ℚ := match l with
      | '-' :: _ => -1
      | _ => 1
    let body : List Char := match l with
      | '-' :: rest => rest
      | '+' :: rest => rest
      | _ => l
    if body == "Infinity".data then
      (if sgn = 1 then JsNum.posInf else JsNum.negInf)
    else
      match body.span isDigitChar with
      | (ip, []) =>
        if ip.isEmpty then JsNum.nan
        else JsNum.fin (sgn * (parseDigitsAux ip 0 : ℚ))
      | (ip, '.' :: fp) =>
        if fp.all isDigitChar && !(ip.isEmpty && fp.isEmpty) then
          JsNum.fin (sgn * ((parseDigitsAux ip 0 : ℚ) +
            (parseDigitsAux fp 0 : ℚ) / (10 ^ fp.length)))
        else JsNum.nan
      | _ => JsNum.nan

/-- Smallest exponent `k ≤ 20` with `den ∣ 10 ^ k`, if any. -/
def pow10Exp (den : ℕ) : Option ℕ :=
  (List.range 21).find? (fun k => decide (den ∣ 10 ^ k))

/-- Left-pad a string with `'0'` to length `k`. -/
def padZeroes (k : ℕ) (s : String) : String :=
  ⟨List.replicate (k - s.length) '0' ++ s.data⟩

/-- Decimal rendering of a rational whose denominator divides a power of
ten (every JSON-literal number is of this form); other denominators fall
back to a fraction rendering, unreachable for gateway inputs. -/
def ratDecimalString (q : ℚ) : String :=
  let sign := if q < 0 then "-" else ""
  let a := |q|
  match pow10Exp a.den with
  | some 0 => sign ++ toString a.num
  | some (k + 1) =>
    let scaled := a.num.toNat * (10 ^ (k + 1) / a.den)
    sign ++ toString (scaled / 10 ^ (k + 1)) ++ "." ++
      padZeroes (k + 1) (toString (scaled % 10 ^ (k + 1)))
  | none => sign ++ toString a.num ++ "/" ++ toString a.den

/-- Model of the JavaScript `String(x)` coercion on numbers. -/
def jsNumToString : JsNum → String
  | JsNum.nan => "NaN"
  | JsNum.posInf => "Infinity"
  | JsNum.negInf => "-Infinity"
  | JsNum.fin q => ratDecimalString q

/-- `Number(item.Value)` for a `string | number` value. -/
def jsValToNumber : JsVal → JsNum
  | JsVal.num v => v
  | JsVal.str s => jsStringToNumber s

/-- `String(item.Value)` for a `string | number` value. -/
def jsValToString : JsVal → String
  | JsVal.str s => s
  | JsVal.num v => jsNumToString v

/-- The transaction status union type
`"pending" | "success" | "failed" | "cancelled"`. -/
inductive Status
  | pending
  | success
  | failed
  | cancelled
deriving DecidableEq

/-- `TransactionStatus` from `src/types/mpesa.types.ts`; the optional
fields are `Option`s (`undefined` = `none`). -/
structure TransactionStatus where
  transactionId : String
  status : Status
  amount : JsNum
  phoneNumber : String
  mpesaReceiptNumber : Option String
  transactionDate : Option String
  errorMessage : Option String
deriving DecidableEq

/-- `STKPushResponse` from `src/types/mpesa.types.ts` (the provider's
synchronous acknowledgment of a push request). Fields are declared
strings; an absent field is modelled by the empty string, which is what
the `|| ""` defaults in the service collapse it to. -/
structure STKPushResponse where
  MerchantRequestID : String
  CheckoutRequestID : String
  ResponseCode : String
  ResponseDescription : String
  CustomerMessage : String
deriving DecidableEq

/-- `PaymentResponse` from `src/types/mpesa.types.ts`. -/
structure PaymentResponse where
  success : Bool
  transactionId : String
  checkoutRequestId : String
  message : String
  customerMessage : Option String
deriving DecidableEq

/-- `QuerySTKResponse` from `src/types/mpesa.types.ts`; note its
`ResultCode` is a string, unlike the callback's numeric one. -/
structure QuerySTKResponse where
  ResponseCode : String
  ResponseDescription : String
  MerchantRequestID : String
  CheckoutRequestID : String
  ResultCode : String
  ResultDesc : String
deriving DecidableEq

/-- One name/value item of `CallbackMetadata.Item`. -/
structure CallbackMetadataItem where
  Name : String
  Value : JsVal
deriving DecidableEq

/-- `CallbackMetadata`: `{ Item: Array<{Name, Value}> }`. -/
structure CallbackMetadata where
  Item : List CallbackMetadataItem
deriving DecidableEq

/-- The `Body.stkCallback` object of a callback envelope. -/
structure StkCallback where
  MerchantRequestID : String
  CheckoutRequestID : String
  ResultCode : Int
  ResultDesc : String
  CallbackMetadata : Option CallbackMetadata
deriving DecidableEq

/-- The `Body` wrapper of a callback envelope. -/
structure STKPushCallbackBody where
  stkCallback : StkCallback
deriving DecidableEq

/-- `STKPushCallback` from `src/types/mpesa.types.ts`: the structurally
valid callback envelope `{ Body: { stkCallback: ... } }`. -/
structure STKPushCallback where
  Body : STKPushCallbackBody
deriving DecidableEq

/-- The mutable pair `{accessToken, tokenExpiry}` of `MpesaService`;
`tokenExpiry` is a millisecond epoch timestamp, as `Date` compares by. -/
structure TokenState where
  accessToken : String
  tokenExpiry : Int
deriving DecidableEq

/-- `AccessTokenResponse` from `src/types/mpesa.types.ts`. -/
structure AccessTokenResponse where
  access_token : String
  expires_in : String
deriving DecidableEq

/-- Outcome of a `getAccessToken` call: the returned token, the token
state after the call, and whether a credential exchange was performed. -/
structure TokenResult where
  token : String
  state : TokenState
  exchanged : Bool
deriving DecidableEq

/-- `MpesaService.getAccessToken`. The HTTP token exchange is a
parameter: `exchange` is its outcome when the call is made
(`Except.error` = transport/auth failure of the HTTP call itself). A
cached token is served while `accessToken` is truthy (nonempty) and
`tokenExpiry > new Date()`; otherwise one exchange runs, and a truthy
`access_token` is stored with expiry `Date.now() + 55 * 60 * 1000`. All
failures are rethrown as `Authentication failed: ...`. -/
def getAccessToken (st : TokenState) (now : Int)
    (exchange : Except String AccessTokenResponse) : Except String TokenResult :=
  if st.accessToken ≠ "" ∧ st.tokenExpiry > now then
    Except.ok ⟨st.accessToken, st, false⟩
  else
    match exchange with
    | Except.error e => Except.error ("Authentication failed: " ++ e)
    | Except.ok response =>
      if response.access_token ≠ "" then
        Except.ok ⟨response.access_token,
                   ⟨response.access_token, now + 55 * 60 * 1000⟩, true⟩
      else
        Except.error ("Authentication failed: " ++ "Failed to obtain access token")

/-- JavaScript `s || d` for strings: the default replaces an empty
(falsy) string. -/
def jsOrDefault (s d : String) : String :=
  if s = "" then d else s

/-- `MpesaService.initiateSTKPush`, from the provider's reply onward.
The token acquisition and the HTTP POST are summarized by the
`providerReply` parameter: `Except.error` is a transport/auth failure of
the HTTP call (or of token acquisition), which the surrounding catch
rethrows as `Payment initiation failed: ...`; `Except.ok` is the
provider's acknowledgment body, which is mapped to a `PaymentResponse`
and returned normally whatever its `ResponseCode`. -/
def initiateSTKPush (providerReply : Except String STKPushResponse) :
    Except String PaymentResponse :=
  match providerReply with
  | Except.error e => Except.error ("Payment initiation failed: " ++ e)
  | Except.ok responseData =>
    if responseData.ResponseCode = "0" then
      Except.ok
        { success := true
          transactionId := responseData.MerchantRequestID
          checkoutRequestId := responseData.CheckoutRequestID
          message := "Payment request sent successfully"
          customerMessage := some responseData.CustomerMessage }
    else
      Except.ok
        { success := false
          transactionId := jsOrDefault responseData.MerchantRequestID ""
          checkoutRequestId := jsOrDefault responseData.CheckoutRequestID ""
          message := jsOrDefault responseData.ResponseDescription "Payment request failed"
          customerMessage := none }

/-- The poll path's result-code mapping in `querySTKPushStatus`:
`status` starts as `"pending"` and is reassigned only for the string
codes `"0"`, `"1032"` and `"1"`. -/
def queryStatusOfCode (rc : String) : Status :=
  if rc = "0" then Status.success
  else if rc = "1032" then Status.cancelled
  else if rc = "1" then Status.failed
  else Status.pending

/-- `MpesaService.querySTKPushStatus`, from the provider's reply onward
(`providerReply` as in `initiateSTKPush`; transport failure is rethrown
as `Status query failed: ...`). -/
def querySTKPushStatus (providerReply : Except String QuerySTKResponse) :
    Except String TransactionStatus :=
  match providerReply with
  | Except.error e => Except.error ("Status query failed: " ++ e)
  | Except.ok responseData =>
    let status := queryStatusOfCode responseData.ResultCode
    Except.ok
      { transactionId := responseData.MerchantRequestID
        status := status
        amount := JsNum.fin 0
        phoneNumber := ""
        mpesaReceiptNumber := none
        transactionDate := none
        errorMessage :=
          if status ≠ Status.success then some responseData.ResultDesc else none }

/-- The callback path's result-code mapping in `processSTKCallback`:
`status` starts as `"failed"` and is reassigned for the numeric codes
`0` and `1032`. -/
def callbackStatusOfCode (rc : Int) : Status :=
  if rc = 0 then Status.success
  else if rc = 1032 then Status.cancelled
  else Status.failed

/-- The four local variables filled by the metadata loop of
`processSTKCallback`, with their initial (zero) values as default. -/
structure ExtractedFields where
  amount : JsNum := JsNum.fin 0
  phoneNumber : String := ""
  mpesaReceiptNumber : String := ""
  transactionDate : String := ""
deriving DecidableEq

/-- One iteration of the `for (const item of callback.CallbackMetadata.Item)`
switch in `processSTKCallback`. -/
def extractStep (acc : ExtractedFields) (item : CallbackMetadataItem) : ExtractedFields :=
  if item.Name = "Amount" then { acc with amount := jsValToNumber item.Value }
  else if item.Name = "PhoneNumber" then { acc with phoneNumber := jsValToString item.Value }
  else if item.Name = "MpesaReceiptNumber" then
    { acc with mpesaReceiptNumber := jsValToString item.Value }
  else if item.Name = "TransactionDate" then
    { acc with transactionDate := jsValToString item.Value }
  else acc

/-- The whole metadata loop of `processSTKCallback`. -/
def extractMetadata (items : List CallbackMetadataItem) : ExtractedFields :=
  items.foldl extractStep {}

/-- `MpesaService.processSTKCallback`. The body is a pure transformation
of the envelope; the surrounding try/catch is modelled by the `Except`
return type (the body has no throw site on a structurally valid
envelope, so the error branch is never taken). -/
def processSTKCallback (callbackData : STKPushCallback) :
    Except String TransactionStatus :=
  let callback := callbackData.Body.stkCallback
  let status := callbackStatusOfCode callback.ResultCode
  let fields : ExtractedFields :=
    if callback.ResultCode = 0 then
      match callback.CallbackMetadata with
      | some md => extractMetadata md.Item
      | none => {}
    else {}
  Except.ok
    { transactionId := callback.MerchantRequestID
      status := status
      amount := fields.amount
      phoneNumber := fields.phoneNumber
      mpesaReceiptNumber :=
        if status = Status.success then some fields.mpesaReceiptNumber else none
      transactionDate :=
        if status = Status.success then some fields.transactionDate else none
      errorMessage :=
        if status ≠ Status.success then some callback.ResultDesc else none }

/-- The flat metadata item list of an envelope (empty when
`CallbackMetadata` is absent). -/
def callbackItems (p : STKPushCallback) : List CallbackMetadataItem :=
  match p.Body.stkCallback.CallbackMetadata with
  | some md => md.Item
  | none => []

/-- The value of the last metadata item with the given name, if any —
the value the overwrite-style extraction loop keeps. -/
def lastNamed : List CallbackMetadataItem → String → Option JsVal
  | [], _ => none
  | it :: rest, nm =>
    match lastNamed rest nm with
    | some v => some v
    | none => if it.Name = nm then some it.Value else none

/-- The extracted-fields record an envelope ends up with: the metadata
loop runs only on result code 0, otherwise the zero-valued defaults
remain. -/
def procFields (p : STKPushCallback) : ExtractedFields :=
  if p.Body.stkCallback.ResultCode = 0 then extractMetadata (callbackItems p) else {}

/-! Helper lemmas shared by the claim theorems. -/

lemma processSTKCallback_fields (p : STKPushCallback) :
    processSTKCallback p = Except.ok
      { transactionId := p.Body.stkCallback.MerchantRequestID
        status := callbackStatusOfCode p.Body.stkCallback.ResultCode
        amount := (procFields p).amount
        phoneNumber := (procFields p).phoneNumber
        mpesaReceiptNumber :=
          if callbackStatusOfCode p.Body.stkCallback.ResultCode = Status.success then
            some (procFields p).mpesaReceiptNumber
          else none
        transactionDate :=
          if callbackStatusOfCode p.Body.stkCallback.ResultCode = Status.success then
            some (procFields p).transactionDate
          else none
        errorMessage :=
          if callbackStatusOfCode p.Body.stkCallback.ResultCode ≠ Status.success then
            some p.Body.stkCallback.ResultDesc
          else none } := by
  cases hmd : p.Body.stkCallback.CallbackMetadata with
  | none =>
    simp only [processSTKCallback, procFields, callbackItems, hmd]
    split_ifs <;> rfl
  | some md =>
    simp only [processSTKCallback, procFields, callbackItems, hmd]

lemma foldl_extractStep_amount (items : List CallbackMetadataItem) (acc : ExtractedFields) :
    (List.foldl extractStep acc items).amount =
      match lastNamed items "Amount" with
      | some v => jsValToNumber v
      | none => acc.amount := by
  induction items generalizing acc with
  | nil => rfl
  | cons it rest ih =>
    rw [List.foldl_cons, ih]
    cases hl : lastNamed rest "Amount" with
    | some v => simp [lastNamed, hl]
    | none =>
      simp only [lastNamed, hl]
      by_cases hn : it.Name = "Amount"
      · simp [extractStep, hn]
      · simp only [extractStep, if_neg hn, hn, if_false]
        split_ifs <;> rfl

lemma foldl_extractStep_phoneNumber (items : List CallbackMetadataItem) (acc : ExtractedFields) :
    (List.foldl extractStep acc items).phoneNumber =
      match lastNamed items "PhoneNumber" with
      | some v => jsValToString v
      | none => acc.phoneNumber := by
  induction items generalizing acc with
  | nil => rfl
  | cons it rest ih =>
    rw [List.foldl_cons, ih]
    cases hl : lastNamed rest "PhoneNumber" with
    | some v => simp [lastNamed, hl]
    | none =>
      simp only [lastNamed, hl]
      by_cases hn : it.Name = "PhoneNumber"
      · simp [extractStep, hn]
      · simp only [extractStep, hn, if_false]
        split_ifs <;> rfl

lemma foldl_extractStep_receiptNo (items : List CallbackMetadataItem) (acc : ExtractedFields) :
    (List.foldl extractStep acc items).mpesaReceiptNumber =
      match lastNamed items "MpesaReceiptNumber" with
      | some v => jsValToString v
      | none => acc.mpesaReceiptNumber := by
  induction items generalizing acc with
  | nil => rfl
  | cons it rest ih =>
    rw [List.foldl_cons, ih]
    cases hl : lastNamed rest "MpesaReceiptNumber" with
    | some v => simp [lastNamed, hl]
    | none =>
      simp only [lastNamed, hl]
      by_cases hn : it.Name = "MpesaReceiptNumber"
      · simp [extractStep, hn]
      · simp only [extractStep, hn, if_false]
        split_ifs <;> rfl

lemma foldl_extractStep_txnDate (items : List CallbackMetadataItem) (acc : ExtractedFields) :
    (List.foldl extractStep acc items).transactionDate =
      match lastNamed items "TransactionDate" with
      | some v => jsValToString v
      | none => acc.transactionDate := by
  induction items generalizing acc with
  | nil => rfl
  | cons it rest ih =>
    rw [List.foldl_cons, ih]
    cases hl : lastNamed rest "TransactionDate" with
    | some v => simp [lastNamed, hl]
    | none =>
      simp only [lastNamed, hl]
      by_cases hn : it.Name = "TransactionDate"
      · simp [extractStep, hn]
      · simp only [extractStep, hn, if_false]
        split_ifs <;> rfl

lemma lastNamed_eq_none (items : List CallbackMetadataItem) (nm : String)
    (h : ∀ it ∈ items, it.Name ≠ nm) : lastNamed items nm = none := by
  induction items with
  | nil => rfl
  | cons it rest ih =>
    have hrest := ih (fun x hx => h x (List.mem_cons_of_mem it hx))
    simp only [lastNamed, hrest]
    rw [if_neg (h it (List.mem_cons_self it rest))]

lemma stripChars_eq_self {s : String} (h : ∀ c ∈ s.data, keepChar c = true) :
    stripChars s = s := by
  cases s with
  | mk l => exact congrArg String.mk (List.filter_eq_self.mpr h)

lemma keepChar_of_mem_stripChars {ch : Char} {s : String}
    (h : ch ∈ (stripChars s).data) : keepChar ch = true :=
  List.of_mem_filter h

lemma keepChar_digit {c : Char} (h : c ∈ ("0123456789").data) : keepChar c = true := by
  fin_cases h <;> decide

lemma jsStartsWith_append254 (x : String) : jsStartsWith ("254" ++ x) "254" = true := by
  have h254 : "254".data = ['2', '5', '4'] := rfl
  simp [jsStartsWith, String.data_append, h254, List.isPrefixOf]

lemma data_of_startsWith254 {o : String} (h : jsStartsWith o "254" = true) :
    ∃ rest, o.data = '2' :: '5' :: '4' :: rest := by
  unfold jsStartsWith at h
  rw [List.isPrefixOf_iff_prefix] at h
  obtain ⟨t, ht⟩ := h
  exact ⟨t, ht.symm⟩

lemma callbackStatusOfCode_cases (rc : Int) :
    callbackStatusOfCode rc = Status.success ∨
    callbackStatusOfCode rc = Status.cancelled ∨
    callbackStatusOfCode rc = Status.failed := by
  unfold callbackStatusOfCode
  split_ifs <;> simp

lemma processSTKCallback_status (p : STKPushCallback) :
    (processSTKCallback p).toOption.map TransactionStatus.status =
      some (callbackStatusOfCode p.Body.stkCallback.ResultCode) := rfl

/-! Claim theorems. -/

/-- C3: for every structurally valid envelope, result code 0 maps to
`success` with `Amount`, `PhoneNumber`, `MpesaReceiptNumber` and
`TransactionDate` taken from the (last) matching name/value metadata
item, each field left at its zero value when no item matches; code 1032
maps to `cancelled`; every other non-zero code maps to `failed` with the
payload's `ResultDesc` as the error message. -/
theorem processSTKCallback_result_mapping (p : STKPushCallback) :
    (p.Body.stkCallback.ResultCode = 0 →
      processSTKCallback p = Except.ok
        { transactionId := p.Body.stkCallback.MerchantRequestID
          status := Status.success
          amount := (match lastNamed (callbackItems p) "Amount" with
                     | some v => jsValToNumber v
                     | none => JsNum.fin 0)
          phoneNumber := (match lastNamed (callbackItems p) "PhoneNumber" with
                          | some v => jsValToString v
                          | none => "")
          mpesaReceiptNumber :=
            some (match lastNamed (callbackItems p) "MpesaReceiptNumber" with
                  | some v => jsValToString v
                  | none => "")
          transactionDate :=
            some (match lastNamed (callbackItems p) "TransactionDate" with
                  | some v => jsValToString v
                  | none => "")
          errorMessage := none }) ∧
    (p.Body.stkCallback.ResultCode = 1032 →
      processSTKCallback p = Except.ok
        { transactionId := p.Body.stkCallback.MerchantRequestID
          status := Status.cancelled
          amount := JsNum.fin 0
          phoneNumber := ""
          mpesaReceiptNumber := none
          transactionDate := none
          errorMessage := some p.Body.stkCallback.ResultDesc }) ∧
    (p.Body.stkCallback.ResultCode ≠ 0 → p.Body.stkCallback.ResultCode ≠ 1032 →
      processSTKCallback p = Except.ok
        { transactionId := p.Body.stkCallback.MerchantRequestID
          status := Status.failed
          amount := JsNum.fin 0
          phoneNumber := ""
          mpesaReceiptNumber := none
          transactionDate := none
          errorMessage := some p.Body.stkCallback.ResultDesc }) := by
  refine ⟨?_, ?_, ?_⟩
  · intro h0
    rw [processSTKCallback_fields]
    have hst : callbackStatusOfCode p.Body.stkCallback.ResultCode = Status.success := by
      rw [h0]; rfl
    have hfl : procFields p = extractMetadata (callbackItems p) := by
      simp [procFields, h0]
    rw [hst, hfl]
    simp only [extractMetadata, foldl_extractStep_amount, foldl_extractStep_phoneNumber,
      foldl_extractStep_receiptNo, foldl_extractStep_txnDate]
    simp
  · intro h1032
    rw [processSTKCallback_fields]
    have hst : callbackStatusOfCode p.Body.stkCallback.ResultCode = Status.cancelled := by
      rw [h1032]; rfl
    have hfl : procFields p = {} := by
      simp [procFields, h1032]
    rw [hst, hfl]
    simp
  · intro h0 h1032
    rw [processSTKCallback_fields]
    have hst : callbackStatusOfCode p.Body.stkCallback.ResultCode = Status.failed := by
      unfold callbackStatusOfCode
      rw [if_neg h0, if_neg h1032]
    have hfl : procFields p = {} := by
      simp [procFields, h0]
    rw [hst, hfl]
    simp

/-- Witness for C3 at three concrete envelopes: a success with metadata
(and an overwriting duplicate item), a user cancellation and a generic
failure. -/
theorem processSTKCallback_result_mapping_witness :
    processSTKCallback ⟨⟨⟨"m1", "c1", 0, "OK", some ⟨[⟨"Amount", JsVal.num (JsNum.fin 100)⟩,
        ⟨"MpesaReceiptNumber", JsVal.str "R1"⟩, ⟨"Amount", JsVal.num (JsNum.fin 250)⟩]⟩⟩⟩⟩ =
      Except.ok ⟨"m1", Status.success, JsNum.fin 250, "", some "R1", some "", none⟩ ∧
    processSTKCallback ⟨⟨⟨"m2", "c2", 1032, "Request cancelled by user", none⟩⟩⟩ =
      Except.ok ⟨"m2", Status.cancelled, JsNum.fin 0, "", none, none,
        some "Request cancelled by user"⟩ ∧
    processSTKCallback ⟨⟨⟨"m3", "c3", 2001, "Wrong PIN", none⟩⟩⟩ =
      Except.ok ⟨"m3", Status.failed, JsNum.fin 0, "", none, none, some "Wrong PIN"⟩ := by
  refine ⟨?_, ?_, ?_⟩
  · have h := (processSTKCallback_result_mapping ⟨⟨⟨"m1", "c1", 0, "OK",
      some ⟨[⟨"Amount", JsVal.num (JsNum.fin 100)⟩, ⟨"MpesaReceiptNumber", JsVal.str "R1"⟩,
        ⟨"Amount", JsVal.num (JsNum.fin 250)⟩]⟩⟩⟩⟩).1 rfl
    rw [h]
    rfl
  · exact (processSTKCallback_result_mapping
      ⟨⟨⟨"m2", "c2", 1032, "Request cancelled by user", none⟩⟩⟩).2.1 rfl
  · exact (processSTKCallback_result_mapping
      ⟨⟨⟨"m3", "c3", 2001, "Wrong PIN", none⟩⟩⟩).2.2 (by decide) (by decide)

/-- C4: `processSTKCallback` is total over structurally valid envelopes
— it always returns a `TransactionStatus` (the modelled try/catch error
branch is never taken) — and a missing metadata item leaves the
corresponding field at its zero value instead of failing. -/
theorem processSTKCallback_total_missing_items (p : STKPushCallback) :
    (processSTKCallback p).isOk = true ∧
    ((∀ it ∈ callbackItems p, it.Name ≠ "Amount") →
      (processSTKCallback p).toOption.map TransactionStatus.amount = some (JsNum.fin 0)) ∧
    ((∀ it ∈ callbackItems p, it.Name ≠ "PhoneNumber") →
      (processSTKCallback p).toOption.map TransactionStatus.phoneNumber = some "") ∧
    (p.Body.stkCallback.ResultCode = 0 →
      (∀ it ∈ callbackItems p, it.Name ≠ "MpesaReceiptNumber") →
      (processSTKCallback p).toOption.map TransactionStatus.mpesaReceiptNumber =
        some (some "")) ∧
    (p.Body.stkCallback.ResultCode = 0 →
      (∀ it ∈ callbackItems p, it.Name ≠ "TransactionDate") →
      (processSTKCallback p).toOption.map TransactionStatus.transactionDate =
        some (some "")) := by
  rw [processSTKCallback_fields]
  refine ⟨rfl, ?_, ?_, ?_, ?_⟩
  · intro h
    by_cases h0 : p.Body.stkCallback.ResultCode = 0
    · have hfl : procFields p = extractMetadata (callbackItems p) := by
        simp [procFields, h0]
      simp only [Except.toOption, Option.map, hfl, extractMetadata,
        foldl_extractStep_amount, lastNamed_eq_none _ _ h]
    · have hfl : procFields p = {} := by simp [procFields, h0]
      rw [hfl]
      rfl
  · intro h
    by_cases h0 : p.Body.stkCallback.ResultCode = 0
    · have hfl : procFields p = extractMetadata (callbackItems p) := by
        simp [procFields, h0]
      simp only [Except.toOption, Option.map, hfl, extractMetadata,
        foldl_extractStep_phoneNumber, lastNamed_eq_none _ _ h]
    · have hfl : procFields p = {} := by simp [procFields, h0]
      rw [hfl]
      rfl
  · intro h0 h
    have hst : callbackStatusOfCode p.Body.stkCallback.ResultCode = Status.success := by
      rw [h0]; rfl
    have hfl : procFields p = extractMetadata (callbackItems p) := by
      simp [procFields, h0]
    simp only [Except.toOption, Option.map, hst, hfl, extractMetadata, if_pos rfl,
      foldl_extractStep_receiptNo, lastNamed_eq_none _ _ h]
    simp
  · intro h0 h
    have hst : callbackStatusOfCode p.Body.stkCallback.ResultCode = Status.success := by
      rw [h0]; rfl
    have hfl : procFields p = extractMetadata (callbackItems p) := by
      simp [procFields, h0]
    simp only [Except.toOption, Option.map, hst, hfl, extractMetadata, if_pos rfl,
      foldl_extractStep_txnDate, lastNamed_eq_none _ _ h]
    simp

/-- Witness for C4 at a code-0 envelope whose metadata list carries none
of the four expected item names. -/
theorem processSTKCallback_total_missing_items_witness :
    (processSTKCallback ⟨⟨⟨"m1", "c1", 0, "OK",
        some ⟨[⟨"Balance", JsVal.num (JsNum.fin 7)⟩]⟩⟩⟩⟩).isOk = true ∧
    (processSTKCallback ⟨⟨⟨"m1", "c1", 0, "OK",
        some ⟨[⟨"Balance", JsVal.num (JsNum.fin 7)⟩]⟩⟩⟩⟩).toOption.map
      TransactionStatus.amount = some (JsNum.fin 0) ∧
    (processSTKCallback ⟨⟨⟨"m1", "c1", 0, "OK",
        some ⟨[⟨"Balance", JsVal.num (JsNum.fin 7)⟩]⟩⟩⟩⟩).toOption.map
      TransactionStatus.mpesaReceiptNumber = some (some "") := by
  have h := processSTKCallback_total_missing_items
    ⟨⟨⟨"m1", "c1", 0, "OK", some ⟨[⟨"Balance", JsVal.num (JsNum.fin 7)⟩]⟩⟩⟩⟩
  exact ⟨h.1, h.2.1 (by decide), h.2.2.2.1 rfl (by decide)⟩

/-- C6 counterexample: the input `"07"` matches neither the local
pattern `0[17]` + 8 digits nor the international pattern `254[17]` +
8 digits (the Kenyan regex rejects it), yet `formatPhoneNumber` does not
fail on it — it returns `"2547"` — so failing is not equivalent to
matching neither pattern. -/
theorem formatPhoneNumber_accepts_unmatched_input :
    formatPhoneNumber "07" = Except.ok "2547" ∧
    validatePhoneNumber "07" = false :=
  ⟨rfl, rfl⟩

/-- C6 amended: `formatPhoneNumber` fails exactly when, after stripping
whitespace, dashes and plus signs, the input starts with none of `07`,
`01` and `254` — it checks only these leading markers, not the full
mobile-number patterns; in particular it fails on `"123456789"`. -/
theorem formatPhoneNumber_failure_boundary :
    (∀ s : String, (formatPhoneNumber s).isOk =
      (jsStartsWith (stripChars s) "07" || jsStartsWith (stripChars s) "01" ||
        jsStartsWith (stripChars s) "254")) ∧
    formatPhoneNumber "123456789" = Except.error "Invalid phone number format" := by
  refine ⟨?_, rfl⟩
  intro s
  simp only [formatPhoneNumber]
  cases hb : (jsStartsWith (stripChars s) "07" || jsStartsWith (stripChars s) "01") with
  | true => simp [hb, jsStartsWith_append254, Except.isOk, Except.toBool]
  | false =>
    cases hc : jsStartsWith (stripChars s) "254" with
    | true => simp [hb, hc, Except.isOk, Except.toBool]
    | false => simp [hb, hc, Except.isOk, Except.toBool]

/-- C7: every valid local-format number `0` + mobile prefix (`1` or `7`)
+ 8 digits is rewritten to `254` + the same trailing 9 digits, and every
already-international number `254` + mobile prefix + 8 digits is
returned unchanged. -/
theorem formatPhoneNumber_normalization (c : Char) (d : String)
    (hc : c = '1' ∨ c = '7')
    (_hlen : d.length = 8)
    (hdig : ∀ ch ∈ d.data, ch ∈ ("0123456789").data) :
    formatPhoneNumber ⟨'0' :: c :: d.data⟩ =
      Except.ok ⟨'2' :: '5' :: '4' :: c :: d.data⟩ ∧
    formatPhoneNumber ⟨'2' :: '5' :: '4' :: c :: d.data⟩ =
      Except.ok ⟨'2' :: '5' :: '4' :: c :: d.data⟩ := by
  have hkeep : ∀ ch ∈ d.data, keepChar ch = true := fun ch h => keepChar_digit (hdig ch h)
  have hkc : keepChar c = true := by rcases hc with rfl | rfl <;> decide
  have h1 : stripChars ⟨'0' :: c :: d.data⟩ = ⟨'0' :: c :: d.data⟩ := by
    apply stripChars_eq_self
    intro x hx
    rcases List.mem_cons.mp hx with rfl | hx
    · decide
    · rcases List.mem_cons.mp hx with rfl | hx
      · exact hkc
      · exact hkeep x hx
  have h2 : stripChars ⟨'2' :: '5' :: '4' :: c :: d.data⟩ =
      ⟨'2' :: '5' :: '4' :: c :: d.data⟩ := by
    apply stripChars_eq_self
    intro x hx
    rcases List.mem_cons.mp hx with rfl | hx
    · decide
    · rcases List.mem_cons.mp hx with rfl | hx
      · decide
      · rcases List.mem_cons.mp hx with rfl | hx
        · decide
        · rcases List.mem_cons.mp hx with rfl | hx
          · exact hkc
          · exact hkeep x hx
  have happ : ∀ l : List Char, "254" ++ String.mk l = String.mk ('2' :: '5' :: '4' :: l) :=
    fun l => rfl
  constructor
  · simp only [formatPhoneNumber, h1]
    rcases hc with rfl | rfl <;>
      simp [jsStartsWith, List.isPrefixOf, jsDrop1, happ]
  · simp only [formatPhoneNumber, h2]
    simp [jsStartsWith, List.isPrefixOf]

/-- Witness for C7 at the concrete numbers `0712345678` and
`254712345678`. -/
theorem formatPhoneNumber_normalization_witness :
    formatPhoneNumber "0712345678" = Except.ok "254712345678" ∧
    formatPhoneNumber "254712345678" = Except.ok "254712345678" :=
  formatPhoneNumber_normalization '7' "12345678" (Or.inr rfl) rfl (by decide)

/-- C10: `formatPhoneNumber` is idempotent on its successes: a
successful output starts with `254`, and running the function again on
it succeeds and returns it unchanged. -/
theorem formatPhoneNumber_idempotent (s o : String)
    (h : formatPhoneNumber s = Except.ok o) :
    jsStartsWith o "254" = true ∧ formatPhoneNumber o = Except.ok o := by
  have main : jsStartsWith o "254" = true ∧ ∀ ch ∈ o.data, keepChar ch = true := by
    simp only [formatPhoneNumber] at h
    cases hb : (jsStartsWith (stripChars s) "07" || jsStartsWith (stripChars s) "01") with
    | true =>
      rw [hb] at h
      simp only [reduceIte] at h
      rw [jsStartsWith_append254] at h
      simp only [Bool.not_true, Bool.false_eq_true, reduceIte] at h
      injection h with h
      subst h
      refine ⟨jsStartsWith_append254 _, ?_⟩
      intro ch hch
      rw [String.data_append] at hch
      rcases List.mem_append.mp hch with hch | hch
      · have : ch ∈ ['2', '5', '4'] := hch
        fin_cases this <;> decide
      · exact keepChar_of_mem_stripChars (List.mem_of_mem_drop hch)
    | false =>
      rw [hb] at h
      simp only [Bool.false_eq_true, reduceIte] at h
      cases hc : jsStartsWith (stripChars s) "254" with
      | true =>
        rw [hc] at h
        simp only [Bool.not_true, Bool.false_eq_true, reduceIte] at h
        injection h with h
        subst h
        exact ⟨hc, fun ch hch => keepChar_of_mem_stripChars hch⟩
      | false =>
        rw [hc] at h
        simp at h
  obtain ⟨hstarts, hkeepo⟩ := main
  obtain ⟨rest, hdata⟩ := data_of_startsWith254 hstarts
  have ho : o = ⟨'2' :: '5' :: '4' :: rest⟩ := by
    cases o with
    | mk l => exact congrArg String.mk hdata
  have hself : stripChars o = o := stripChars_eq_self hkeepo
  refine ⟨hstarts, ?_⟩
  simp only [formatPhoneNumber, hself]
  rw [ho]
  simp [jsStartsWith, List.isPrefixOf]

/-- Witness for C10: idempotence at the success on `"0712345678"`. -/
theorem formatPhoneNumber_idempotent_witness :
    jsStartsWith "254712345678" "254" = true ∧
    formatPhoneNumber "254712345678" = Except.ok "254712345678" :=
  formatPhoneNumber_idempotent "0712345678" "254712345678" rfl

/-- C8: for every number `x`, `validateAmount x` is true iff `x` is
finite and `1 ≤ x ≤ 70000`; in particular it accepts 1 and 70000 and
rejects 70000.01, 0, NaN and the infinities. -/
theorem validateAmount_iff_finite_in_bounds :
    (∀ x : JsNum, validateAmount x = true ↔
      ∃ q : ℚ, x = JsNum.fin q ∧ 1 ≤ q ∧ q ≤ 70000) ∧
    validateAmount (JsNum.fin 1) = true ∧
    validateAmount (JsNum.fin 70000) = true ∧
    validateAmount (JsNum.fin (7000001 / 100)) = false ∧
    validateAmount (JsNum.fin 0) = false ∧
    validateAmount JsNum.nan = false ∧
    validateAmount JsNum.posInf = false ∧
    validateAmount JsNum.negInf = false := by
  refine ⟨?_, by decide, by decide, ?_, by decide, by decide, by decide, by decide⟩
  · intro x
    cases x with
    | nan => simp [validateAmount, JsNum.geb, JsNum.leb, JsNum.isFinite]
    | posInf => simp [validateAmount, JsNum.geb, JsNum.leb, JsNum.isFinite]
    | negInf => simp [validateAmount, JsNum.geb, JsNum.leb, JsNum.isFinite]
    | fin q =>
      simp only [validateAmount, JsNum.geb, JsNum.leb, JsNum.isFinite,
        Bool.and_eq_true, decide_eq_true_eq, and_true]
      constructor
      · rintro ⟨h1, h2⟩
        exact ⟨q, rfl, h1, h2⟩
      · rintro ⟨q', hq, h1, h2⟩
        cases hq
        exact ⟨h1, h2⟩
  · simp only [validateAmount, JsNum.geb, JsNum.leb, JsNum.isFinite, Bool.and_true,
      Bool.and_eq_false_iff, decide_eq_false_iff_not, not_le]
    right
    norm_num

/-- C9: the callback path never yields a `pending` status: for every
structurally valid envelope the processed status is `success`, `failed`
or `cancelled`. -/
theorem processSTKCallback_status_terminal (p : STKPushCallback) :
    (processSTKCallback p).toOption.map TransactionStatus.status = some Status.success ∨
    (processSTKCallback p).toOption.map TransactionStatus.status = some Status.failed ∨
    (processSTKCallback p).toOption.map TransactionStatus.status = some Status.cancelled := by
  rw [processSTKCallback_status]
  rcases callbackStatusOfCode_cases p.Body.stkCallback.ResultCode with h | h | h <;>
    rw [h] <;> simp

/-- C1 counterexample: at provider result code 2 the poll path yields
`pending` while the callback path yields `failed`, so the code→status
mapping is neither path-independent nor `failed` on every other code. -/
theorem status_mapping_disagrees_at_2 :
    queryStatusOfCode "2" = Status.pending ∧
    callbackStatusOfCode 2 = Status.failed ∧
    queryStatusOfCode "2" ≠ callbackStatusOfCode 2 := by
  decide

/-- C1 amended: the two paths agree on the three recognized codes —
0 maps to `success`, 1032 to `cancelled`, 1 to `failed` on both paths —
but on every other code they disagree: the poll path (whose code is a
string) leaves the status `pending`, while the callback path (whose code
is a number) defaults to `failed`. -/
theorem status_mapping_agreement_and_divergence :
    (queryStatusOfCode "0" = Status.success ∧ callbackStatusOfCode 0 = Status.success) ∧
    (queryStatusOfCode "1032" = Status.cancelled ∧ callbackStatusOfCode 1032 = Status.cancelled) ∧
    (queryStatusOfCode "1" = Status.failed ∧ callbackStatusOfCode 1 = Status.failed) ∧
    (∀ rc : String, rc ≠ "0" → rc ≠ "1032" → rc ≠ "1" →
      queryStatusOfCode rc = Status.pending) ∧
    (∀ rc : Int, rc ≠ 0 → rc ≠ 1032 → callbackStatusOfCode rc = Status.failed) := by
  refine ⟨by decide, by decide, by decide, ?_, ?_⟩
  · intro rc h0 h1032 h1
    unfold queryStatusOfCode
    rw [if_neg h0, if_neg h1032, if_neg h1]
  · intro rc h0 h1032
    unfold callbackStatusOfCode
    rw [if_neg h0, if_neg h1032]

/-- Witness for the amended C1 at the concrete unrecognized code 5. -/
theorem status_mapping_agreement_and_divergence_witness :
    queryStatusOfCode "5" = Status.pending ∧ callbackStatusOfCode 5 = Status.failed :=
  ⟨status_mapping_agreement_and_divergence.2.2.2.1 "5" (by decide) (by decide) (by decide),
   status_mapping_agreement_and_divergence.2.2.2.2 5 (by decide) (by decide)⟩

/-- C2 counterexample: at a rejected acknowledgment whose
`ResponseDescription` is empty (absent), the returned message is the
hard-coded default `"Payment request failed"`, not the provider's
description — so a non-`"0"` code does not always carry the provider's
`ResponseDescription` as the message. -/
theorem initiateSTKPush_default_message_at_empty_description :
    initiateSTKPush (Except.ok ⟨"mX", "cX", "1", "", ""⟩) =
      Except.ok ⟨false, "mX", "cX", "Payment request failed", none⟩ ∧
    ("Payment request failed" : String) ≠
      (STKPushResponse.mk "mX" "cX" "1" "" "").ResponseDescription :=
  ⟨rfl, by decide⟩

/-- C2 amended: `initiateSTKPush` maps every provider acknowledgment to
a normal return value: `ResponseCode = "0"` yields `success = true` with
both correlation identifiers and the provider's customer message; any
other code yields `success = false` — with the provider's description as
the message when the provider supplied one, and with the fixed default
message `"Payment request failed"` when the description is empty or
absent — still carrying the correlation identifiers the provider
supplied (empty string when absent); only a transport/auth failure of
the HTTP call itself produces an error. -/
theorem initiateSTKPush_result_mapping (r : STKPushResponse) (e : String) :
    (initiateSTKPush (Except.ok r)).isOk = true ∧
    (r.ResponseCode = "0" →
      initiateSTKPush (Except.ok r) =
        Except.ok ⟨true, r.MerchantRequestID, r.CheckoutRequestID,
          "Payment request sent successfully", some r.CustomerMessage⟩) ∧
    (r.ResponseCode ≠ "0" → r.ResponseDescription ≠ "" →
      initiateSTKPush (Except.ok r) =
        Except.ok ⟨false, r.MerchantRequestID, r.CheckoutRequestID,
          r.ResponseDescription, none⟩) ∧
    (r.ResponseCode ≠ "0" → r.ResponseDescription = "" →
      initiateSTKPush (Except.ok r) =
        Except.ok ⟨false, r.MerchantRequestID, r.CheckoutRequestID,
          "Payment request failed", none⟩) ∧
    initiateSTKPush (Except.error e) =
      Except.error ("Payment initiation failed: " ++ e) := by
  refine ⟨?_, ?_, ?_, ?_, rfl⟩
  · simp only [initiateSTKPush]
    split_ifs <;> rfl
  · intro h0
    simp only [initiateSTKPush]
    rw [if_pos h0]
  · intro h0 hdesc
    simp only [initiateSTKPush]
    rw [if_neg h0]
    simp only [jsOrDefault]
    rw [if_neg hdesc]
    split_ifs with h1 h2 <;> simp_all
  · intro h0 hdesc
    simp only [initiateSTKPush]
    rw [if_neg h0]
    simp only [jsOrDefault]
    rw [if_pos hdesc]
    split_ifs with h1 h2 <;> simp_all

/-- Witness for C2 at concrete acknowledgments: accepted, rejected with
a description, rejected without a description, and a transport
failure. -/
theorem initiateSTKPush_result_mapping_witness :
    initiateSTKPush (Except.ok ⟨"m1", "c1", "0", "Success", "Prompt sent"⟩) =
      Except.ok ⟨true, "m1", "c1", "Payment request sent successfully", some "Prompt sent"⟩ ∧
    initiateSTKPush (Except.ok ⟨"", "", "1", "Insufficient funds", ""⟩) =
      Except.ok ⟨false, "", "", "Insufficient funds", none⟩ ∧
    initiateSTKPush (Except.ok ⟨"m2", "c2", "1", "", ""⟩) =
      Except.ok ⟨false, "m2", "c2", "Payment request failed", none⟩ ∧
    initiateSTKPush (Except.error "timeout") =
      Except.error ("Payment initiation failed: " ++ "timeout") :=
  ⟨(initiateSTKPush_result_mapping ⟨"m1", "c1", "0", "Success", "Prompt sent"⟩ "x").2.1 rfl,
   (initiateSTKPush_result_mapping ⟨"", "", "1", "Insufficient funds", ""⟩ "x").2.2.1
     (by decide) (by decide),
   (initiateSTKPush_result_mapping ⟨"m2", "c2", "1", "", ""⟩ "x").2.2.2.1
     (by decide) rfl,
   (initiateSTKPush_result_mapping ⟨"", "", "0", "", ""⟩ "timeout").2.2.2.2⟩

/-- C5: the token cache contract of `getAccessToken`: with a cached
(nonempty) token whose recorded expiry is still in the future, the
cached value is returned, the state is unchanged and no credential
exchange happens; with the token absent or expired, exactly one exchange
runs and a returned token value is stored with expiry 55 minutes from
now (5 minutes below the provider's 1-hour lifetime) and returned; and
an exchange reply without a token value fails with an authentication
error. -/
theorem getAccessToken_cache_contract :
    (∀ (st : TokenState) (now : Int) (ex : Except String AccessTokenResponse),
      st.accessToken ≠ "" → st.tokenExpiry > now →
      getAccessToken st now ex = Except.ok ⟨st.accessToken, st, false⟩) ∧
    (∀ (st : TokenState) (now : Int) (resp : AccessTokenResponse),
      st.accessToken = "" ∨ st.tokenExpiry ≤ now →
      resp.access_token ≠ "" →
      getAccessToken st now (Except.ok resp) =
        Except.ok ⟨resp.access_token, ⟨resp.access_token, now + 55 * 60 * 1000⟩, true⟩) ∧
    (∀ (st : TokenState) (now : Int) (resp : AccessTokenResponse),
      st.accessToken = "" ∨ st.tokenExpiry ≤ now →
      resp.access_token = "" →
      getAccessToken st now (Except.ok resp) =
        Except.error ("Authentication failed: " ++ "Failed to obtain access token")) := by
  refine ⟨?_, ?_, ?_⟩
  · intro st now ex h1 h2
    unfold getAccessToken
    rw [if_pos ⟨h1, h2⟩]
  · intro st now resp hmiss htok
    unfold getAccessToken
    have hcond : ¬(st.accessToken ≠ "" ∧ st.tokenExpiry > now) := by
      rcases hmiss with h | h
      · exact fun hc => hc.1 h
      · exact fun hc => absurd hc.2 (not_lt.mpr h)
    rw [if_neg hcond]
    simp only
    rw [if_pos htok]
  · intro st now resp hmiss htok
    unfold getAccessToken
    have hcond : ¬(st.accessToken ≠ "" ∧ st.tokenExpiry > now) := by
      rcases hmiss with h | h
      · exact fun hc => hc.1 h
      · exact fun hc => absurd hc.2 (not_lt.mpr h)
    rw [if_neg hcond]
    simp only
    rw [if_neg (by simpa using htok)]

/-- Witness for C5: a fresh cache hit, a refresh on an expired state,
and an exchange reply without a token. -/
theorem getAccessToken_cache_contract_witness :
    getAccessToken ⟨"cached", 10⟩ 5 (Except.error "network down") =
      Except.ok ⟨"cached", ⟨"cached", 10⟩, false⟩ ∧
    getAccessToken ⟨"", 0⟩ 7 (Except.ok ⟨"tok", "3599"⟩) =
      Except.ok ⟨"tok", ⟨"tok", 7 + 55 * 60 * 1000⟩, true⟩ ∧
    getAccessToken ⟨"old", 5⟩ 5 (Except.ok ⟨"", "3599"⟩) =
      Except.error ("Authentication failed: " ++ "Failed to obtain access token") :=
  ⟨getAccessToken_cache_contract.1 ⟨"cached", 10⟩ 5 _ (by decide) (by decide),
   getAccessToken_cache_contract.2.1 ⟨"", 0⟩ 7 ⟨"tok", "3599"⟩ (Or.inl rfl) (by decide),
   getAccessToken_cache_contract.2.2 ⟨"old", 5⟩ 5 ⟨"", "3599"⟩ (Or.inr (by decide)) rfl⟩

end MpesaGateway
